import Mathlib

/-!
Verification of `src/classes/constitutive_law.py` (PyPD).

Shallow embedding conventions:
* Python floats are modelled as exact real numbers (`ℝ`); the bond-damage law
  only compares and selects values, so it is stated polymorphically over any
  `LinearOrderedField` and instantiated at `ℚ` where executable evaluation is
  needed and at `ℝ` where it interacts with the constructor formulas.
* Fallible Python code is modelled with `Except PyError`: plain float division
  by zero raises `ZeroDivisionError` in Python, so real division is wrapped in
  `fdiv`.  The error type also lists the error classes named by the spec
  (`ConfigurationError`, `UnimplementedLawError`) so that their absence from
  the code paths can be stated.
* A Python method declared with zero parameters (the source writes
  `def __init__():` without `self`) raises `TypeError` when invoked through an
  instance or instantiation, because the implicit instance argument cannot be
  bound; `pythonInstantiate` models instantiation with that arity check.
-/

/-- Errors that the embedded code can signal.  `typeError`,
`notImplementedError` and `zeroDivisionError` are Python built-ins raised by
the source; `configurationError` and `unimplementedLawError` are the error
classes the spec postulates (no code in the source defines or raises them). -/
inductive PyError where
  | typeError
  | notImplementedError
  | zeroDivisionError
  | configurationError
  | unimplementedLawError
  deriving DecidableEq, Repr

/-- Python `None`, the value returned by a `pass`-bodied method. -/
inductive PyNone where
  | none
  deriving DecidableEq, Repr

/-- Material parameters read by `Linear`: `material.E` (Young's modulus) and
`material.Gf` (fracture energy).  The `Material` class itself is outside the
source file; only these two attribute reads occur. -/
structure Material where
  E : ℝ
  Gf : ℝ

/-- Geometry/particle data read by `Linear`: the source reads
`particles.horizon`.  The `thickness` field is modelled from the spec: the
spec requires thickness to be an explicit geometry field, and it is included
here so that the claim about it can be stated; the source never reads it. -/
structure Particles where
  horizon : ℝ
  thickness : ℝ

/-- Python float division: `x / y` raises `ZeroDivisionError` when `y == 0`. -/
noncomputable def fdiv (x y : ℝ) : Except PyError ℝ :=
  if y = 0 then Except.error PyError.zeroDivisionError else Except.ok (x / y)

/-- Python instantiation `C()` calls `C.__init__` with one argument (the fresh
instance).  If `__init__` was declared with `nparams` parameters, the call
succeeds only when `nparams` matches; otherwise Python raises `TypeError`
before the body runs. -/
def pythonInstantiate (nparams : Nat) : Except PyError PyNone :=
  if nparams = 1 then Except.ok PyNone.none else Except.error PyError.typeError

/-- Embeds `ConstitutiveLaw.__init__`, declared as `def __init__(): pass` with
zero parameters. -/
def ConstitutiveLaw.init_nparams : Nat := 0

/-- Embeds instantiation of the `ConstitutiveLaw` base class: the inherited
`__init__` takes zero parameters, so `ConstitutiveLaw()` raises `TypeError`. -/
def ConstitutiveLaw.new : Except PyError PyNone :=
  pythonInstantiate ConstitutiveLaw.init_nparams

/-- Embeds `ConstitutiveLaw.required_parameters`: a `pass` body, returns
`None` and raises nothing (when called on the class object with no
arguments, matching its zero-parameter declaration). -/
def ConstitutiveLaw.required_parameters : Except PyError PyNone :=
  Except.ok PyNone.none

/-- Embeds `ConstitutiveLaw.calculate_parameter_values`: the body is
`raise NotImplementedError("This method must be implemented!")`. -/
def ConstitutiveLaw.calculate_parameter_values : Except PyError PyNone :=
  Except.error PyError.notImplementedError

/-- Embeds `ConstitutiveLaw.calculate_bond_damage`: a `pass` body, returns
`None` and raises nothing. -/
def ConstitutiveLaw.calculate_bond_damage : Except PyError PyNone :=
  Except.ok PyNone.none

/-- Embeds `class Bilinear(ConstitutiveLaw): pass` — instantiation uses the
inherited zero-parameter `__init__`. -/
def Bilinear.new : Except PyError PyNone := ConstitutiveLaw.new

/-- Embeds `Bilinear.calculate_parameter_values`, inherited unchanged. -/
def Bilinear.calculate_parameter_values : Except PyError PyNone :=
  ConstitutiveLaw.calculate_parameter_values

/-- Embeds `Bilinear.calculate_bond_damage`, inherited unchanged. -/
def Bilinear.calculate_bond_damage : Except PyError PyNone :=
  ConstitutiveLaw.calculate_bond_damage

/-- Embeds `Bilinear.required_parameters`, inherited unchanged. -/
def Bilinear.required_parameters : Except PyError PyNone :=
  ConstitutiveLaw.required_parameters

/-- Embeds `class Trilinear(ConstitutiveLaw): pass`. -/
def Trilinear.new : Except PyError PyNone := ConstitutiveLaw.new

/-- Embeds `Trilinear.calculate_parameter_values`, inherited unchanged. -/
def Trilinear.calculate_parameter_values : Except PyError PyNone :=
  ConstitutiveLaw.calculate_parameter_values

/-- Embeds `Trilinear.calculate_bond_damage`, inherited unchanged. -/
def Trilinear.calculate_bond_damage : Except PyError PyNone :=
  ConstitutiveLaw.calculate_bond_damage

/-- Embeds `class NonLinear(ConstitutiveLaw): pass`. -/
def NonLinear.new : Except PyError PyNone := ConstitutiveLaw.new

/-- Embeds `NonLinear.calculate_parameter_values`, inherited unchanged. -/
def NonLinear.calculate_parameter_values : Except PyError PyNone :=
  ConstitutiveLaw.calculate_parameter_values

/-- Embeds `NonLinear.calculate_bond_damage`, inherited unchanged. -/
def NonLinear.calculate_bond_damage : Except PyError PyNone :=
  ConstitutiveLaw.calculate_bond_damage

/-- Modelled from the spec: the `linear` bond-damage law imported from
`solver.constitutive_model`, a module absent from the sources.  Per the spec,
damage jumps discretely to `1.0` once the stretch strictly exceeds the
critical stretch `sc`, and otherwise (including the tie `stretch == sc`) the
previous damage `d` is returned unchanged. -/
def linear {α : Type} [LinearOrderedField α] (stretch d sc : α) : α :=
  if stretch > sc then 1 else d

/-- The `Linear` instance state: the two attributes `self.c` and `self.sc`
assigned by `Linear.__init__`. -/
structure Linear where
  c : ℝ
  sc : ℝ

/-- Embeds `Linear._calculate_bond_stiffness`: the thickness is the literal
`t = 2.5E-3` from the source (marked `TODO: do not hardcode values` there);
the supplied geometry's `thickness` field is never read. -/
noncomputable def Linear.calculate_bond_stiffness (material : Material)
    (particles : Particles) : Except PyError ℝ :=
  let t : ℝ := 2.5e-3
  fdiv (9 * material.E) (Real.pi * t * particles.horizon ^ 3)

/-- Embeds `Linear._calculate_critical_stretch`:
`sc = np.sqrt((4 * np.pi * material.Gf) / (9 * material.E * particles.horizon))`. -/
noncomputable def Linear.calculate_critical_stretch (material : Material)
    (particles : Particles) : Except PyError ℝ :=
  match fdiv (4 * Real.pi * material.Gf) (9 * material.E * particles.horizon) with
  | Except.error e => Except.error e
  | Except.ok x => Except.ok (Real.sqrt x)

/-- Embeds `Linear.__init__(self, material, particles)`: computes `self.c`
first, then `self.sc`; performs no validation of the inputs and raises none of
the spec's configuration errors. -/
noncomputable def Linear.new (material : Material) (particles : Particles) :
    Except PyError Linear :=
  match Linear.calculate_bond_stiffness material particles with
  | Except.error e => Except.error e
  | Except.ok c =>
    match Linear.calculate_critical_stretch material particles with
    | Except.error e => Except.error e
    | Except.ok sc => Except.ok ⟨c, sc⟩

/-- Embeds the closure returned by the static method
`Linear.calculate_bond_damage(sc)`: the returned `wrapper(stretch, d)` simply
evaluates `linear(stretch, d, sc)` with `sc` captured at wrapping time. -/
def Linear.bond_damage {α : Type} [LinearOrderedField α] (sc : α) :
    α → α → α :=
  fun stretch d => linear stretch d sc

/-- Embeds a call of the bound damage evaluator made from a `Linear` instance
state: the wrapper body contains no attribute assignment, so the call returns
its result together with the instance state it was given, unchanged. -/
noncomputable def Linear.call_bond_damage (st : Linear) (stretch d : ℝ) :
    ℝ × Linear :=
  (Linear.bond_damage st.sc stretch d, st)

/-- Chained evaluation: each returned damage is fed into the next call as the
previous damage, as the spec describes for the life of a bond. -/
def Linear.chain_bond_damage (sc : ℚ) (d0 : ℚ) : List ℚ → List ℚ
  | [] => []
  | s :: ss =>
    Linear.bond_damage sc s d0 ::
      Linear.chain_bond_damage sc (Linear.bond_damage sc s d0) ss

/-- Modelled from the spec: batch (vectorized) evaluation of the damage
function over an ordered sequence of stretches and previous damages.  The
vectorized path runs through the `numba`-compiled wrapper and the missing
`solver.constitutive_model.linear`; per the spec it applies the single-bond
law elementwise to corresponding entries. -/
def Linear.batch_bond_damage (sc : ℚ) (ss ds : List ℚ) : List ℚ :=
  List.zipWith (fun s d => Linear.bond_damage sc s d) ss ds

/-- Bond stiffness exactly as the spec words it, with the thickness `t` an
explicit geometry parameter: `c = (9 * E) / (π * t * δ³)`. -/
noncomputable def bond_stiffness_spec (E t δ : ℝ) : ℝ :=
  (9 * E) / (Real.pi * t * δ ^ 3)

/-- Critical stretch exactly as the spec words it:
`sc = sqrt((4 * π * Gf) / (9 * E * δ))`. -/
noncomputable def critical_stretch_spec (E Gf δ : ℝ) : ℝ :=
  Real.sqrt ((4 * Real.pi * Gf) / (9 * E * δ))

theorem fdiv_of_ne_zero (x : ℝ) {y : ℝ} (h : y ≠ 0) :
    fdiv x y = Except.ok (x / y) := by
  simp [fdiv, h]

theorem linear_of_gt {α : Type} [LinearOrderedField α] {stretch sc : α}
    (d : α) (h : sc < stretch) : linear stretch d sc = 1 :=
  if_pos h

theorem linear_of_le {α : Type} [LinearOrderedField α] {stretch sc : α}
    (d : α) (h : stretch ≤ sc) : linear stretch d sc = d :=
  if_neg (not_lt.mpr h)

theorem le_linear {α : Type} [LinearOrderedField α] (stretch sc : α)
    {d : α} (hd : d ≤ 1) : d ≤ linear stretch d sc := by
  unfold linear
  split
  · exact hd
  · exact le_refl d

theorem linear_le_one {α : Type} [LinearOrderedField α] (stretch sc : α)
    {d : α} (hd : d ≤ 1) : linear stretch d sc ≤ 1 := by
  unfold linear
  split
  · exact le_refl 1
  · exact hd

theorem chain_bond_damage_le (sc : ℚ) :
    ∀ (ss : List ℚ) (d0 : ℚ), d0 ≤ 1 →
      List.Chain' (· ≤ ·) (d0 :: Linear.chain_bond_damage sc d0 ss)
  | [], _, _ => List.chain'_singleton _
  | s :: ss, d0, h1 => by
    simp only [Linear.chain_bond_damage, List.chain'_cons]
    exact ⟨le_linear s sc h1,
      chain_bond_damage_le sc ss _ (linear_le_one s sc h1)⟩

theorem Linear.new_ok (m : Material) (p : Particles) (hδ : p.horizon ≠ 0)
    (hE : m.E ≠ 0) :
    Linear.new m p =
      Except.ok
        ⟨(9 * m.E) / (Real.pi * 2.5e-3 * p.horizon ^ 3),
          Real.sqrt ((4 * Real.pi * m.Gf) / (9 * m.E * p.horizon))⟩ := by
  have h1 : Real.pi * 2.5e-3 * p.horizon ^ 3 ≠ 0 :=
    mul_ne_zero (mul_ne_zero Real.pi_ne_zero (by norm_num)) (pow_ne_zero 3 hδ)
  have h2 : 9 * m.E * p.horizon ≠ 0 :=
    mul_ne_zero (mul_ne_zero (by norm_num) hE) hδ
  simp [Linear.new, Linear.calculate_bond_stiffness,
    Linear.calculate_critical_stretch, fdiv_of_ne_zero, h1, h2]

/-- Claim C1: the bound evaluator produced for a critical stretch `sc`
returns exactly `1` when the stretch strictly exceeds `sc`, and returns the
previous damage `d ∈ [0,1]` unchanged otherwise, including at the tie
`stretch = sc`. -/
theorem C1_bond_damage_step (sc s d : ℚ) (_h0 : 0 ≤ d) (_h1 : d ≤ 1) :
    (sc < s → Linear.bond_damage sc s d = 1) ∧
      (s ≤ sc → Linear.bond_damage sc s d = d) :=
  ⟨fun h => linear_of_gt d h, fun h => linear_of_le d h⟩

/-- Witness for C1 at `sc = 1`, `s = 2` and `s = 1`, `d = 1/2`. -/
theorem C1_bond_damage_step_witness :
    ((0 : ℚ) ≤ 1 / 2 ∧ (1 : ℚ) / 2 ≤ 1) ∧
      ((1 : ℚ) < 2 → Linear.bond_damage (1 : ℚ) 2 (1 / 2) = 1) ∧
      ((2 : ℚ) ≤ 1 → Linear.bond_damage (1 : ℚ) 2 (1 / 2) = 1 / 2) :=
  ⟨⟨one_half_pos.le, one_half_lt_one.le⟩,
    C1_bond_damage_step 1 2 (1 / 2) one_half_pos.le one_half_lt_one.le⟩

/-- Claim C6: feeding each returned damage forward as the previous damage,
a non-decreasing stretch sequence and an initial damage in `[0,1]` produce a
monotonically non-decreasing damage sequence (damage never heals). -/
theorem C6_chained_damage_monotone (sc d0 : ℚ) (ss : List ℚ)
    (_hss : List.Chain' (· ≤ ·) ss) (_h0 : 0 ≤ d0) (h1 : d0 ≤ 1) :
    List.Chain' (· ≤ ·) (d0 :: Linear.chain_bond_damage sc d0 ss) :=
  chain_bond_damage_le sc ss d0 h1

/-- Witness for C6 at `sc = 1`, `d0 = 0`, stretches `[1, 2]`. -/
theorem C6_chained_damage_monotone_witness :
    List.Chain' (· ≤ ·) [(1 : ℚ), 2] ∧ (0 : ℚ) ≤ 0 ∧ (0 : ℚ) ≤ 1 ∧
      List.Chain' (· ≤ ·) ((0 : ℚ) :: Linear.chain_bond_damage 1 0 [1, 2]) :=
  ⟨List.Chain.cons one_le_two List.Chain.nil, le_refl 0, zero_le_one,
    C6_chained_damage_monotone 1 0 [1, 2]
      (List.Chain.cons one_le_two List.Chain.nil) (le_refl 0) zero_le_one⟩

/-- Claim C9: batch evaluation over corresponding stretch and previous-damage
sequences has the same length as the inputs and agrees elementwise with the
single-bond evaluator (no cross-element interaction). -/
theorem C9_batch_matches_single (sc : ℚ) (ss ds : List ℚ)
    (hlen : ss.length = ds.length) :
    (Linear.batch_bond_damage sc ss ds).length = ss.length ∧
      ∀ (i : Nat) (hb : i < (Linear.batch_bond_damage sc ss ds).length)
        (hs : i < ss.length) (hd : i < ds.length),
        (Linear.batch_bond_damage sc ss ds).get ⟨i, hb⟩ =
          Linear.bond_damage sc (ss.get ⟨i, hs⟩) (ds.get ⟨i, hd⟩) := by
  constructor
  · simp [Linear.batch_bond_damage, hlen]
  · intro i hb hs hd
    simp [Linear.batch_bond_damage, List.get_eq_getElem, List.getElem_zipWith]

/-- Witness for C9 at `sc = 1`, stretches `[1, 2]`, damages `[0, 0]`. -/
theorem C9_batch_matches_single_witness :
    ([(1 : ℚ), 2].length = [(0 : ℚ), 0].length) ∧
      ((Linear.batch_bond_damage 1 [1, 2] [0, 0]).length = [(1 : ℚ), 2].length ∧
        ∀ (i : Nat) (hb : i < (Linear.batch_bond_damage 1 [1, 2] [0, 0]).length)
          (hs : i < [(1 : ℚ), 2].length) (hd : i < [(0 : ℚ), 0].length),
          (Linear.batch_bond_damage 1 [1, 2] [0, 0]).get ⟨i, hb⟩ =
            Linear.bond_damage 1 ([(1 : ℚ), 2].get ⟨i, hs⟩)
              ([(0 : ℚ), 0].get ⟨i, hd⟩)) :=
  ⟨rfl, C9_batch_matches_single 1 [1, 2] [0, 0] rfl⟩

/-- Claim C7: a call of the bound damage evaluator leaves the `Linear`
instance state untouched: the state after the call is the state before it,
and in particular `c` and `sc` are unchanged. -/
theorem C7_call_preserves_state (st : Linear) (stretch d : ℝ) :
    (st.call_bond_damage stretch d).2 = st ∧
      (st.call_bond_damage stretch d).2.c = st.c ∧
      (st.call_bond_damage stretch d).2.sc = st.sc :=
  ⟨rfl, rfl, rfl⟩

/-- Claim C3: for positive `E`, `Gf` and horizon, construction succeeds and
the stored critical stretch is exactly `sqrt((4 * π * Gf) / (9 * E * δ))`. -/
theorem C3_critical_stretch_formula (m : Material) (p : Particles)
    (hE : 0 < m.E) (_hG : 0 < m.Gf) (hδ : 0 < p.horizon) :
    ∃ st : Linear, Linear.new m p = Except.ok st ∧
      st.sc = critical_stretch_spec m.E m.Gf p.horizon :=
  ⟨_, Linear.new_ok m p hδ.ne' hE.ne', rfl⟩

/-- Witness for C3 at `E = 1`, `Gf = 1`, `δ = 1`, thickness `1`. -/
theorem C3_critical_stretch_formula_witness :
    ((0 : ℝ) < 1 ∧ (0 : ℝ) < 1 ∧ (0 : ℝ) < 1) ∧
      ∃ st : Linear, Linear.new ⟨1, 1⟩ ⟨1, 1⟩ = Except.ok st ∧
        st.sc = critical_stretch_spec 1 1 1 :=
  ⟨⟨one_pos, one_pos, one_pos⟩,
    C3_critical_stretch_formula ⟨1, 1⟩ ⟨1, 1⟩ one_pos one_pos one_pos⟩

/-- Claim C8: for positive `E`, `Gf`, horizon and thickness, construction
succeeds, the derived stiffness and critical stretch are strictly positive
(finite by construction in the real-number model), and construction is
deterministic: equal inputs give equal results. -/
theorem C8_derived_values_positive_reproducible (m : Material) (p : Particles)
    (hE : 0 < m.E) (hG : 0 < m.Gf) (hδ : 0 < p.horizon)
    (_ht : 0 < p.thickness) :
    ∃ st : Linear, Linear.new m p = Except.ok st ∧ 0 < st.c ∧ 0 < st.sc ∧
      ∀ (m' : Material) (p' : Particles), m' = m → p' = p →
        Linear.new m' p' = Linear.new m p := by
  refine ⟨_, Linear.new_ok m p hδ.ne' hE.ne', ?_, ?_, ?_⟩
  · have hπ := Real.pi_pos
    positivity
  · refine Real.sqrt_pos.mpr ?_
    have hπ := Real.pi_pos
    positivity
  · intro m' p' hm hp
    rw [hm, hp]

/-- Witness for C8 at `E = 1`, `Gf = 1`, `δ = 1`, thickness `1`. -/
theorem C8_derived_values_positive_reproducible_witness :
    ((0 : ℝ) < 1 ∧ (0 : ℝ) < 1 ∧ (0 : ℝ) < 1 ∧ (0 : ℝ) < 1) ∧
      ∃ st : Linear, Linear.new ⟨1, 1⟩ ⟨1, 1⟩ = Except.ok st ∧
        0 < st.c ∧ 0 < st.sc ∧
        ∀ (m' : Material) (p' : Particles),
          m' = ⟨1, 1⟩ → p' = ⟨1, 1⟩ →
            Linear.new m' p' = Linear.new ⟨1, 1⟩ ⟨1, 1⟩ :=
  ⟨⟨one_pos, one_pos, one_pos, one_pos⟩,
    C8_derived_values_positive_reproducible ⟨1, 1⟩ ⟨1, 1⟩
      one_pos one_pos one_pos one_pos⟩

/-- Claim C2 evidence: constructing `Linear` with `E = 1`, `Gf = 1`, horizon
`δ = 1` and a geometry whose thickness is `1` stores a stiffness computed with
the hardcoded literal `t = 2.5e-3`, which differs from the spec's formula
evaluated at the geometry's thickness. -/
theorem C2_thickness_hardcoded :
    ∃ st : Linear, Linear.new ⟨1, 1⟩ ⟨1, 1⟩ = Except.ok st ∧
      st.c = bond_stiffness_spec 1 (2.5e-3) 1 ∧
      st.c ≠ bond_stiffness_spec 1 1 1 := by
  refine ⟨_, Linear.new_ok ⟨1, 1⟩ ⟨1, 1⟩ one_ne_zero one_ne_zero, rfl, ?_⟩
  have hπ := Real.pi_pos
  show (9 * 1 : ℝ) / (Real.pi * 2.5e-3 * 1 ^ 3) ≠
    (9 * 1 : ℝ) / (Real.pi * 1 * 1 ^ 3)
  have hlt : Real.pi * 2.5e-3 * 1 ^ 3 < Real.pi * 1 * 1 ^ 3 := by
    nlinarith
  have h9 : (0 : ℝ) < 9 * 1 := by norm_num
  have hb : (0 : ℝ) < Real.pi * 2.5e-3 * 1 ^ 3 := by positivity
  exact ne_of_gt (div_lt_div_of_pos_left h9 hb hlt)

/-- Claim C4 evidence: constructing `Linear` with `Gf = 0` (and `E = 1`,
`δ = 1`) succeeds silently with `sc = 0`, and no input whatsoever makes
construction surface a `ConfigurationError`. -/
theorem C4_no_configuration_error :
    (∃ st : Linear, Linear.new ⟨1, 0⟩ ⟨1, 1⟩ = Except.ok st ∧ st.sc = 0) ∧
      ∀ (m : Material) (p : Particles),
        Linear.new m p ≠ Except.error PyError.configurationError := by
  constructor
  · refine ⟨_, Linear.new_ok ⟨1, 0⟩ ⟨1, 1⟩ one_ne_zero one_ne_zero, ?_⟩
    show Real.sqrt ((4 * Real.pi * 0) / (9 * 1 * 1)) = 0
    simp
  · intro m p
    by_cases h1 : Real.pi * 2.5e-3 * p.horizon ^ 3 = 0 <;>
      by_cases h2 : 9 * m.E * p.horizon = 0 <;>
        simp [Linear.new, Linear.calculate_bond_stiffness,
          Linear.calculate_critical_stretch, fdiv, h1, h2]

/-- Claim C5 counterexample: constructing `Bilinear` raises `TypeError`, not
`UnimplementedLawError`, and invoking its inherited `calculate_bond_damage`
silently returns `None`. -/
theorem C5_counterexample :
    Bilinear.new ≠ Except.error PyError.unimplementedLawError ∧
      Bilinear.calculate_bond_damage = Except.ok PyNone.none := by
  constructor
  · simp [Bilinear.new, ConstitutiveLaw.new, pythonInstantiate,
      ConstitutiveLaw.init_nparams]
  · rfl

/-- Claim C5 (amended): constructing any of the reserved variants fails fast
with `TypeError` (the inherited `__init__` accepts no arguments), invoking
their `calculate_parameter_values` raises `NotImplementedError`, while their
inherited `calculate_bond_damage` is a silent no-op returning `None`; no
`UnimplementedLawError` is raised anywhere. -/
theorem C5_reserved_variants_behaviour :
    (Bilinear.new = Except.error PyError.typeError ∧
      Trilinear.new = Except.error PyError.typeError ∧
      NonLinear.new = Except.error PyError.typeError) ∧
    (Bilinear.calculate_parameter_values =
        Except.error PyError.notImplementedError ∧
      Trilinear.calculate_parameter_values =
        Except.error PyError.notImplementedError ∧
      NonLinear.calculate_parameter_values =
        Except.error PyError.notImplementedError) ∧
    (Bilinear.calculate_bond_damage = Except.ok PyNone.none ∧
      Trilinear.calculate_bond_damage = Except.ok PyNone.none ∧
      NonLinear.calculate_bond_damage = Except.ok PyNone.none) :=
  ⟨⟨rfl, rfl, rfl⟩, ⟨rfl, rfl, rfl⟩, ⟨rfl, rfl, rfl⟩⟩

/-- Claim C10: `calculate_parameter_values` raises `NotImplementedError` on
the base class and on every `pass`-bodied subclass, while the base class's
`required_parameters` and `calculate_bond_damage` return `None` without
raising. -/
theorem C10_base_methods :
    (ConstitutiveLaw.calculate_parameter_values =
        Except.error PyError.notImplementedError ∧
      Bilinear.calculate_parameter_values =
        Except.error PyError.notImplementedError ∧
      Trilinear.calculate_parameter_values =
        Except.error PyError.notImplementedError ∧
      NonLinear.calculate_parameter_values =
        Except.error PyError.notImplementedError) ∧
    ConstitutiveLaw.required_parameters = Except.ok PyNone.none ∧
    ConstitutiveLaw.calculate_bond_damage = Except.ok PyNone.none :=
  ⟨⟨rfl, rfl, rfl, rfl⟩, rfl, rfl⟩
